import Mathlib

/-!
# Rustizarr — shallow embedding and verification

This file embeds the poster-processing core of the Rustizarr repository
(`backend/src/{plex,tmdb,processor,image_ops,main,cli}.rs`) in Lean 4 and
proves properties of the embedded functions.

Conventions of the embedding:
* `serde_json::Value` is modelled by the inductive `Json`;
* Rust `u64`/`u32`/`usize` values are `Nat`; `f64` ratings and vote averages
  are `ℚ` (no NaN payloads appear in the verified paths);
* unsigned subtraction that can underflow (a panic in the source, debug mode)
  is embedded with an explicit guard returning `Option`/`none`;
* network calls are replaced by an explicit environment ("world") record that
  carries the result each call would return in a given run; the observable
  server mutations (poster upload, label set) are collected in a trace.
-/

set_option autoImplicit false

/-- Model of `serde_json::Value` (only the shapes the code probes). -/
inductive Json where
  | null
  | bool (b : Bool)
  | num (n : Nat)
  | str (s : String)
  | arr (xs : List Json)
  | obj (fields : List (String × Json))
deriving Repr, Inhabited

/-- `Value::as_array`. -/
def Json.asArr : Json → Option (List Json)
  | .arr xs => some xs
  | _ => none

/-- `Value::as_object` (we only ever need to know whether it is an object,
and to look keys up in it, so the object is returned as its field list). -/
def Json.asObj : Json → Option (List (String × Json))
  | .obj fs => some fs
  | _ => none

/-- `Value::as_str`. -/
def Json.asStr : Json → Option String
  | .str s => some s
  | _ => none

/-- `Value::as_u64`. -/
def Json.asNum : Json → Option Nat
  | .num n => some n
  | _ => none

/-- `Value::get(key)`: key lookup on objects, `None` on any other shape. -/
def Json.get (v : Json) (key : String) : Option Json :=
  match v with
  | .obj fs => (fs.find? (fun f => f.1 == key)).map (fun f => f.2)
  | _ => none

/-- Substring containment on character lists: `pat` occurs contiguously in
`hay`. -/
def charsContain : List Char → List Char → Bool
  | [], pat => pat.isEmpty
  | c :: t, pat => pat.isPrefixOf (c :: t) || charsContain t pat

/-- Rust `str::contains` (substring containment). -/
def strContains (hay pat : String) : Bool :=
  charsContain hay.toList pat.toList

/-- `str::to_lowercase`, implemented structurally over the character list so
that concrete evaluation reduces in the kernel. -/
def strToLower (s : String) : String := String.mk (s.toList.map Char.toLower)

/-- `str::to_uppercase`, implemented structurally. -/
def strToUpper (s : String) : String := String.mk (s.toList.map Char.toUpper)

/-- `str::starts_with`. -/
def strStartsWith (s pre : String) : Bool := pre.toList.isPrefixOf s.toList

/-- Drop `pat` from the front of `l` when it is a non-empty prefix. -/
def dropPrefixQ (pat l : List Char) : Option (List Char) :=
  match pat with
  | [] => none
  | _ :: _ => if pat.isPrefixOf l then some (l.drop pat.length) else none

/-- Fuel-driven replacement of every occurrence of `pat` by `repl`
(the fuel is the input length, which always suffices). -/
def replaceFuel (pat repl : List Char) : Nat → List Char → List Char
  | _, [] => []
  | 0, l => l
  | fuel + 1, c :: cs =>
    match dropPrefixQ pat (c :: cs) with
    | some rest => repl ++ replaceFuel pat repl fuel rest
    | none => c :: replaceFuel pat repl fuel cs

/-- `str::replace` (all occurrences; the patterns used in the source are
never empty). -/
def strReplace (s pat repl : String) : String :=
  String.mk (replaceFuel pat.toList repl.toList s.toList.length s.toList)

/-- Fuel-driven splitting on a non-empty separator. -/
def splitOnFuel (sep : List Char) : Nat → List Char → List Char → List (List Char)
  | _, acc, [] => [acc.reverse]
  | 0, acc, l => [acc.reverse ++ l]
  | fuel + 1, acc, c :: cs =>
    match dropPrefixQ sep (c :: cs) with
    | some rest => acc.reverse :: splitOnFuel sep fuel [] rest
    | none => splitOnFuel sep fuel (c :: acc) cs

/-- `str::split(sep)` collected into a list of pieces. -/
def strSplitOn (s sep : String) : List String :=
  (splitOnFuel sep.toList s.toList.length [] s.toList).map fun cs => String.mk cs

/-- `serde` slice coercion used twice in `get_codec_combo_filename`:
an array is its element list, any other value is a one-element slice
(`std::slice::from_ref`). -/
def Json.asSlice (v : Json) : List Json :=
  match v.asArr with
  | some xs => xs
  | none => [v]

-- ==================== Plex data model (`plex.rs`) ====================

/-- `PlexGuid`. -/
structure PlexGuid where
  id : String
deriving Repr, DecidableEq

/-- `PlexMedia`. -/
structure PlexMedia where
  video_resolution : Option String
  audio_codec : Option String
  parts : Option Json
deriving Repr

/-- `PlexMovie`. -/
structure PlexMovie where
  title : String
  rating_key : String
  audience_rating : Option ℚ
  guids : Option (List PlexGuid)
  guid_str : Option String
  year : Option Nat
  media : Option (List PlexMedia)
  added_at : Option Nat
  labels : Option Json
deriving Repr

/-- `PlexShow`. -/
structure PlexShow where
  title : String
  rating_key : String
  year : Option Nat
  audience_rating : Option ℚ
  added_at : Option Nat
  guid : Option (List PlexGuid)
  label : Option Json
  media : Option (List PlexMedia)
deriving Repr

/-- `PlexSeason`. -/
structure PlexSeason where
  title : String
  rating_key : String
  season_number : Nat
  show_title : String
  show_rating_key : String
  audience_rating : Option ℚ
  added_at : Option Nat
  media : Option (List PlexMedia)
  label : Option Json
deriving Repr

/-- The per-entry check inside `has_label`:
`obj.get("tag").and_then(as_str).map(lowercase == target).unwrap_or(false)`. -/
def labelEntryMatches (target : String) (o : Json) : Bool :=
  match (o.get "tag").bind Json.asStr with
  | some s => strToLower s == target
  | none => false

/-- `has_label` body, shared verbatim by `PlexMovie`, `PlexShow` and
`PlexSeason` in the source: lower-case the wanted tag, then accept either an
array of `{tag}` objects or a single `{tag}` object. -/
def hasLabelValue (labels : Option Json) (tagToFind : String) : Bool :=
  let target := strToLower tagToFind
  match labels with
  | some v =>
    match v.asArr with
    | some xs => xs.any (labelEntryMatches target)
    | none =>
      match v.asObj with
      | some _ => labelEntryMatches target v
      | none => false
  | none => false

/-- `PlexMovie::has_label`. -/
def PlexMovie.has_label (m : PlexMovie) (tagToFind : String) : Bool :=
  hasLabelValue m.labels tagToFind

/-- `PlexShow::has_label`. -/
def PlexShow.has_label (s : PlexShow) (tagToFind : String) : Bool :=
  hasLabelValue s.label tagToFind

/-- `PlexSeason.has_label`. -/
def PlexSeason.has_label (s : PlexSeason) (labelName : String) : Bool :=
  hasLabelValue s.label labelName

/-- Shared body of the three `is_recently_added` methods.
`now` stands for `SystemTime::now` in seconds since the epoch.
The source computes `(now - added_at) / 86400` on `u64` with no guard:
when `added_at > now` the subtraction underflows (a panic in debug builds),
embedded here as the `none` branch. -/
def isRecentlyAddedAux (now : Nat) (addedAt : Option Nat) (limitDays : Nat) :
    Option Bool :=
  match addedAt with
  | some a =>
    if a ≤ now then some ((now - a) / 86400 ≤ limitDays) else none
  | none => some false

/-- `PlexMovie::is_recently_added` (7-day window). -/
def PlexMovie.is_recently_added (now : Nat) (m : PlexMovie) : Option Bool :=
  isRecentlyAddedAux now m.added_at 7

/-- `PlexShow::is_recently_added` (30-day window). -/
def PlexShow.is_recently_added (now : Nat) (s : PlexShow) : Option Bool :=
  isRecentlyAddedAux now s.added_at 30

/-- `PlexSeason::is_recently_added` (30-day window). -/
def PlexSeason.is_recently_added (now : Nat) (s : PlexSeason) : Option Bool :=
  isRecentlyAddedAux now s.added_at 30

/-- `PlexClient::extract_tmdb_id`: first `tmdb://` guid, else the legacy
`themoviedb://<id>?...` parse of the plain `guid` string. -/
def extract_tmdb_id (m : PlexMovie) : Option String :=
  let fromGuids : Option String :=
    match m.guids with
    | some gs =>
      (gs.find? (fun g => strStartsWith g.id "tmdb://")).map
        (fun g => strReplace g.id "tmdb://" "")
    | none => none
  match fromGuids with
  | some i => some i
  | none =>
    match m.guid_str with
    | some gstr =>
      if strContains gstr "themoviedb://" then
        let parts := strSplitOn gstr "themoviedb://"
        if parts.length > 1 then
          some ((strSplitOn ((parts.get? 1).getD "") "?").headD "")
        else none
      else none
    | none => none

/-- `PlexClient::extract_tmdb_id_from_show`: `tmdb://` guids only. -/
def extract_tmdb_id_from_show (s : PlexShow) : Option String :=
  match s.guid with
  | some gs =>
    (gs.find? (fun g => strStartsWith g.id "tmdb://")).map
      (fun g => strReplace g.id "tmdb://" "")
  | none => none

-- ==================== processor.rs helper functions ====================

/-- The ASCII apostrophe character, as a one-character string (several source
string literals contain it). -/
def apos : String := String.singleton (Char.ofNat 39)

/-- `get_forced_tmdb_id` (hard-coded override table). -/
def get_forced_tmdb_id (title : String) : Option String :=
  let t := strToLower title
  if t == "abyss" then some "1025527"
  else if t == "kingsman : le cercle d" ++ apos ++ "or"
      || t == "kingsman the golden circle" then some "343668"
  else none

/-- `get_edition_filename`. -/
def get_edition_filename (m : PlexMovie) : Option String :=
  let t := strToLower m.title
  if strContains t ("director" ++ apos ++ "s cut") || strContains t "director cut" then
    some "Directors-Cut.png"
  else if strContains t "extended" then some "Extended-Edition.png"
  else if strContains t "remastered" then some "Remastered.png"
  else if strContains t "uncut" then some "Uncut.png"
  else if strContains t "imax" then some "IMAX.png"
  else none

/-- `get_resolution_filename`. -/
def get_resolution_filename (media : PlexMedia) : Option String :=
  match strToLower (media.video_resolution.getD "") with
  | "4k" => some "Ultra-HD.png"
  | "ultra hd" => some "Ultra-HD.png"
  | "1080" => some "1080P.png"
  | "1080p" => some "1080P.png"
  | "fhd" => some "1080P.png"
  | _ => none

/-- `get_audience_badge_filename`. -/
def get_audience_badge_filename (rating : ℚ) : String :=
  if rating ≥ 8 then "audience_score_high.png"
  else if rating ≥ 6 then "audience_score_mid.png"
  else "audience_score_low.png"

/-- `get_status_filename`. -/
def get_status_filename (status : String) : String :=
  match strToLower status with
  | "returning series" => "returning_border.png"
  | "returning" => "returning_border.png"
  | "canceled" => "cancelled_full.png"
  | "cancelled" => "cancelled_full.png"
  | "ended" => "ended_border.png"
  | "in production" => "airing_border.png"
  | "airing" => "airing_border.png"
  | _ => "airing_border.png"

-- ==================== tmdb.rs ====================

/-- `PosterImage` (one entry of the TMDB `/images` response). The `f64`
`vote_average` is modelled as `ℚ`. -/
structure PosterImage where
  file_path : String
  iso_639_1 : Option String
  width : Nat
  height : Nat
  vote_average : ℚ
deriving Repr

/-- The textless filter used on `/images` responses: language `"xx"`,
`"null"`, or absent. -/
def isTextlessPoster (p : PosterImage) : Bool :=
  match p.iso_639_1 with
  | some lang => lang == "xx" || lang == "null"
  | none => true

/-- Comparison on `ℚ` producing an `Ordering` (stands for
`f64::partial_cmp(..).unwrap_or(Equal)`; no NaN in the model). -/
def cmpQ (a b : ℚ) : Ordering :=
  if a < b then .lt else if b < a then .gt else .eq

/-- The season-poster comparator of `get_season_textless_poster`:
resolution (width·height) descending, then `vote_average` descending. -/
def seasonPosterCmp (a b : PosterImage) : Ordering :=
  (compare (b.width * b.height) (a.width * a.height)).then
    (cmpQ b.vote_average a.vote_average)

/-- Stable insertion of `x` into a `cmp`-sorted list: `x` goes in front of
the first element not strictly below it. -/
def insertSorted {α : Type} (cmp : α → α → Ordering) (x : α) :
    List α → List α
  | [] => [x]
  | y :: ys =>
    if cmp y x = .lt then y :: insertSorted cmp x ys else x :: y :: ys

/-- `Vec::sort_by` with an `Ordering`-valued comparator (a stable sort),
modelled as stable insertion sort. -/
def sortByCmp {α : Type} (cmp : α → α → Ordering) (xs : List α) : List α :=
  xs.foldr (insertSorted cmp) []

/-- TMDB image URL construction (`image-base` ++ `/original` ++ file path). -/
def tmdbImageUrl (p : String) : String :=
  "https://image.tmdb.org/t/p/original" ++ p

/-- Environment for one season-poster resolution run: the responses TMDB
returns for this show/season.  An outer `none` stands for a non-success HTTP
status; the inner option of `seasonDetails` is the `poster_path` field of the
season details. -/
structure SeasonWorld where
  seasonImages : Option (List PosterImage)
  seasonDetails : Option (Option String)

/-- `TmdbClient::get_season_poster`: the standard season `poster_path`,
`none` on a non-success status or an absent `poster_path`. -/
def get_season_poster (w : SeasonWorld) : Option String :=
  match w.seasonDetails with
  | none => none
  | some pp => pp.map tmdbImageUrl

/-- `TmdbClient::get_season_textless_poster`: filter the season `/images`
candidates to textless ones, take the best by (resolution desc, vote desc),
and fall back to `get_season_poster` when none exist (or when the `/images`
request itself is not successful). -/
def get_season_textless_poster (w : SeasonWorld) : Option String :=
  match w.seasonImages with
  | none => get_season_poster w
  | some posters =>
    let candidates := posters.filter isTextlessPoster
    if !candidates.isEmpty then
      match (sortByCmp seasonPosterCmp candidates).head? with
      | some best => some (tmdbImageUrl best.file_path)
      | none => get_season_poster w
    else get_season_poster w

/-- The poster-URL resolution actually performed by
`process_season` (processor.rs line 270): it calls
`tmdb.get_season_poster(show_tmdb_id, season.season_number)` directly. -/
def processSeasonPosterUrl (w : SeasonWorld) : Option String :=
  get_season_poster w

-- ==================== get_codec_combo_filename ====================

/-- The mutable flag set accumulated over the `parts`/`streams` walk of
`get_codec_combo_filename`. -/
structure CodecFlags where
  hasStreamsAccess : Bool := false
  isDv : Bool := false
  isHdr : Bool := false
  isPlus : Bool := false
  hasAtmos : Bool := false
  hasTruehd : Bool := false
  hasDtsHd : Bool := false
  hasDtsX : Bool := false
  hasDdPlus : Bool := false
  foundAudioCodec : String := ""
deriving Repr

/-- One iteration of the inner `for stream in streams_slice` loop. -/
def scanStream (f : CodecFlags) (stream : Json) : CodecFlags :=
  let streamType := ((stream.get "streamType").bind Json.asNum).getD 0
  let f :=
    if streamType == 1 then
      let display := strToLower (((stream.get "displayTitle").bind Json.asStr).getD "")
      let title := strToLower (((stream.get "title").bind Json.asStr).getD "")
      let f :=
        if (stream.get "doviprofile").isSome || (stream.get "DOVIProfile").isSome
            || (stream.get "DOVIPresent").isSome then
          { f with isDv := true }
        else f
      let f :=
        if strContains display "dolby vision" || strContains title "dolby vision"
            || strContains display "dovi" || strContains title "dovi" then
          { f with isDv := true }
        else f
      if strContains display "hdr10+" || strContains title "hdr10+" then
        { f with isPlus := true }
      else if strContains display "hdr" || strContains title "hdr" then
        { f with isHdr := true }
      else f
    else f
  if streamType == 2 then
    let display := strToLower (((stream.get "displayTitle").bind Json.asStr).getD "")
    let title := strToLower (((stream.get "title").bind Json.asStr).getD "")
    let codec := strToLower (((stream.get "codec").bind Json.asStr).getD "")
    let profile := strToLower (((stream.get "audioProfile").bind Json.asStr).getD "")
    let f := { f with foundAudioCodec := codec }
    let f :=
      if strContains title "atmos" || strContains display "atmos" then
        { f with hasAtmos := true }
      else f
    if codec == "truehd" then { f with hasTruehd := true }
    else if codec == "dca" || codec == "dts" then
      let f := if profile == "dts:x" then { f with hasDtsX := true } else f
      { f with hasDtsHd := true }
    else if codec == "eac3" || codec == "ac3" then { f with hasDdPlus := true }
    else f
  else f

/-- One iteration of the outer `for part in parts_slice` loop. -/
def scanPart (f : CodecFlags) (part : Json) : CodecFlags :=
  match (part.get "Stream").orElse (fun _ => part.get "stream") with
  | some streamsValue =>
    (streamsValue.asSlice).foldl scanStream { f with hasStreamsAccess := true }
  | none => f

/-- The whole flag-extraction pass over `media.parts`. -/
def extractCodecFlags (media : PlexMedia) : CodecFlags :=
  match media.parts with
  | some partsValue => (partsValue.asSlice).foldl scanPart {}
  | none => {}

/-- The video-component if-chain of `get_codec_combo_filename`. -/
def codecVideoPart (f : CodecFlags) : Option String :=
  if f.hasStreamsAccess then
    if f.isDv && f.isHdr then some "DV-HDR"
    else if f.isDv && f.isPlus then some "DV-Plus"
    else if f.isDv then some "DV"
    else if f.isPlus then some "Plus"
    else if f.isHdr then some "HDR"
    else none
  else none

/-- The audio-component if-chain of `get_codec_combo_filename`, with the
coarse `audio_codec` fallback when the streams payload was inaccessible. -/
def codecAudioPart (f : CodecFlags) (fallbackAudio : String) : Option String :=
  if f.hasStreamsAccess then
    if f.hasTruehd && f.hasAtmos then some "TrueHD-Atmos"
    else if f.hasTruehd then some "TrueHD"
    else if f.hasDtsX then some "DTS-X"
    else if f.hasDtsHd then some "DTS-HD"
    else if f.hasAtmos then some "Atmos"
    else if f.hasDdPlus then some "DigitalPlus"
    else none
  else
    if fallbackAudio == "truehd" then some "TrueHD"
    else if fallbackAudio == "dca" || fallbackAudio == "dts" then some "DTS-HD"
    else if fallbackAudio == "eac3" || fallbackAudio == "ac3" then some "DigitalPlus"
    else none

/-- `get_codec_combo_filename`. -/
def get_codec_combo_filename (media : PlexMedia) : Option String :=
  let fallbackAudio := strToLower (media.audio_codec.getD "")
  let f := extractCodecFlags media
  match codecVideoPart f, codecAudioPart f fallbackAudio with
  | some v, some a => some (v ++ "-" ++ a ++ ".png")
  | some v, none => some (v ++ ".png")
  | none, some a => some (a ++ ".png")
  | none, none => none

/-- The video precedence table as the spec words it: an ordered list of
(component, condition) pairs, first match wins. -/
def specVideoTable (f : CodecFlags) : List (String × Bool) :=
  [("DV-HDR", f.isDv && f.isHdr),
   ("DV-Plus", f.isDv && f.isPlus),
   ("DV", f.isDv),
   ("Plus", f.isPlus),
   ("HDR", f.isHdr)]

/-- The audio precedence table as the spec words it. -/
def specAudioTable (f : CodecFlags) : List (String × Bool) :=
  [("TrueHD-Atmos", f.hasTruehd && f.hasAtmos),
   ("TrueHD", f.hasTruehd),
   ("DTS-X", f.hasDtsX),
   ("DTS-HD", f.hasDtsHd),
   ("Atmos", f.hasAtmos),
   ("DigitalPlus", f.hasDdPlus)]

/-- First-match selection over a precedence table. -/
def specFirstMatch (table : List (String × Bool)) : Option String :=
  (table.find? (fun e => e.2)).map (fun e => e.1)

-- ==================== image_ops.rs: title layout ====================

/-- Rust `str::split_whitespace` on a character list; the accumulator holds
the current word reversed. -/
def splitWsAux : List Char → List Char → List (List Char)
  | [], acc => if acc.isEmpty then [] else [acc.reverse]
  | c :: cs, acc =>
    if c.isWhitespace then
      if acc.isEmpty then splitWsAux cs [] else acc.reverse :: splitWsAux cs []
    else splitWsAux cs (c :: acc)

/-- Rust `str::split_whitespace` (whitespace-separated words, empties
dropped). -/
def splitWhitespace (s : String) : List String :=
  (splitWsAux s.toList []).map fun cs => String.mk cs

/-- Fixed title font size of `add_movie_title` (`font_size = 250.0`). -/
def titleFontSize : ℚ := 250

/-- `line_height = font_size * 0.85`. -/
def titleLineHeight : ℚ := titleFontSize * (85 / 100)

/-- `margin_bottom = 430`. -/
def titleMarginBottom : ℚ := 430

/-- `max_line_width = img_width * 0.92`. -/
def maxLineWidth (imgWidth : Nat) : ℚ := (imgWidth : ℚ) * (92 / 100)

/-- The greedy word-wrap loop of `add_movie_title`.  `measure` stands for
`imageproc::text_size` at scale 250 with the loaded font (a pure width
oracle).  The source compares `w > img_width * 0.92`; over exact rationals
this is the integer comparison `100·w > 92·img_width`, used here so that
the function evaluates in the kernel.  A word that makes the current line
overflow flushes the line and starts a new one; nothing ever splits a
single word. -/
def wrapWords (measure : String → Nat) (imgWidth : Nat) :
    List String → String → List String
  | [], currentLine => if currentLine != "" then [currentLine] else []
  | word :: words, currentLine =>
    let attempt := if currentLine == "" then word
      else currentLine ++ " " ++ word
    if 100 * measure attempt > 92 * imgWidth then
      (if currentLine != "" then [currentLine] else []) ++
        wrapWords measure imgWidth words word
    else
      wrapWords measure imgWidth words attempt

/-- The lines produced by `add_movie_title` for a title: upper-case, split on
whitespace, greedily wrapped against 92% of the canvas width. -/
def add_movie_title_lines (measure : String → Nat) (imgWidth : Nat)
    (title : String) : List String :=
  wrapWords measure imgWidth (splitWhitespace (strToUpper title)) ""

/-- `start_y = img_height - margin_bottom - total_text_height` (exact
rational value before the `as i32` truncation). -/
def titleStartY (imgHeight : Nat) (numLines : Nat) : ℚ :=
  (imgHeight : ℚ) - titleMarginBottom - numLines * titleLineHeight

/-- Horizontal position of a drawn line: `x = (img_width - w) / 2`
(Rust `i32` division). -/
def titleLineX (measure : String → Nat) (imgWidth : Nat) (line : String) : Int :=
  ((imgWidth : Int) - (measure line : Int)) / 2

-- ==================== Border selection (processor.rs) ====================

/-- The three mutually exclusive border stages. -/
inductive Border where
  | statusFile (f : String)
  | recentlyAdded
  | innerGlow
deriving Repr, DecidableEq

/-- Border chosen by `process_movie` (lines 110–117): recently-added or
inner glow; `none` when `is_recently_added` panics. -/
def movieBorder (now : Nat) (m : PlexMovie) : Option Border :=
  (m.is_recently_added now).map fun r =>
    if r then Border.recentlyAdded else Border.innerGlow

/-- Border chosen by `process_show` (lines 218–230): status first, then
recently-added, then inner glow. -/
def showBorder (now : Nat) (showStatus : Option String) (s : PlexShow) :
    Option Border :=
  match showStatus with
  | some st => some (Border.statusFile (get_status_filename st))
  | none =>
    (s.is_recently_added now).map fun r =>
      if r then Border.recentlyAdded else Border.innerGlow

/-- Border chosen by `process_season` (lines 307–318): show status first,
then the recently-added window of the season, then inner glow. -/
def seasonBorder (now : Nat) (showStatus : Option String) (s : PlexSeason) :
    Option Border :=
  match showStatus with
  | some st => some (Border.statusFile (get_status_filename st))
  | none =>
    (s.is_recently_added now).map fun r =>
      if r then Border.recentlyAdded else Border.innerGlow

-- ==================== main.rs: LibraryCache ====================

/-- `LibraryCache` (main.rs lines 40–79).  `Instant`s are modelled as `Nat`
seconds on a monotonic clock. -/
structure LibraryCache where
  movies : List PlexMovie
  lastUpdate : Option Nat
  cacheDuration : Nat

/-- `LibraryCache::new` (ttl = 300 s). -/
def LibraryCache.new : LibraryCache :=
  { movies := [], lastUpdate := none, cacheDuration := 300 }

/-- `LibraryCache::is_valid`: a last-refresh instant exists and its elapsed
time is strictly below the ttl.  `now - last` is `Instant::elapsed` (the
monotonic clock guarantees `last ≤ now`). -/
def LibraryCache.is_valid (c : LibraryCache) (now : Nat) : Bool :=
  match c.lastUpdate with
  | some last => now - last < c.cacheDuration
  | none => false

/-- `LibraryCache::update`. -/
def LibraryCache.update (c : LibraryCache) (movies : List PlexMovie)
    (now : Nat) : LibraryCache :=
  { c with movies := movies, lastUpdate := some now }

/-- `LibraryCache::get`. -/
def LibraryCache.get (c : LibraryCache) (now : Nat) :
    Option (List PlexMovie) :=
  if c.is_valid now then some c.movies else none

/-- `LibraryCache::invalidate`. -/
def LibraryCache.invalidate (c : LibraryCache) : LibraryCache :=
  { c with lastUpdate := none }

-- ==================== main.rs: webhook ====================

/-- `WebhookMetadata`. -/
structure WebhookMetadata where
  rating_key : String
  media_type : String
deriving Repr, DecidableEq

/-- `PlexWebhookPayload`. -/
structure PlexWebhookPayload where
  event : String
  metadata : Option WebhookMetadata
deriving Repr, DecidableEq

/-- `handle_plex_webhook`, reduced to its decision: given a parsed `payload`
field, which rating key (if any) gets a background task spawned for it.
The handler reacts only to `event == "library.new"` and
`Metadata.type == "movie"`. -/
def handle_plex_webhook (payload : PlexWebhookPayload) : Option String :=
  if payload.event == "library.new" then
    match payload.metadata with
    | some meta =>
      if meta.media_type == "movie" then some meta.rating_key else none
    | none => none
  else none

-- ==================== cli.rs: concurrency clamp ====================

/-- The effective dispatcher concurrency computed by `Commands::Scan` and
`Commands::ScanShows`: `parallel.min(10)`. -/
def scanConcurrency (parallel : Nat) : Nat := min parallel 10

-- ==================== Pipeline runs with an observable trace ====================

/-- The observable mutations performed against the media server by one
pipeline run. -/
inductive ServerAction where
  | upload (ratingKey : String)
  | addLabel (ratingKey : String) (tag : String)
deriving Repr, DecidableEq

/-- Environment of one pipeline run: the result each external call would
return.  Image rasters are abstract tokens (`Nat`).  `Except Unit` results
stand for `anyhow::Result`; `getShowStatus` is already
`.ok().flatten()`-collapsed to an `Option` as in the source. -/
structure PipelineWorld where
  getTextlessPoster : Except Unit (Option String)
  getStandardPoster : Except Unit (Option String)
  getShowStatus : Option String
  downloadImage : String → Except Unit Nat
  addGradientMasks : Nat → Except Unit Nat
  addMovieTitleImg : Nat → Except Unit Nat
  addInnerGlowBorder : Nat → Except Unit Nat
  addStatusBorder : Nat → String → Except Unit Nat
  addOverlay : Nat → String → Except Unit Nat
  addOverlayBottomRight : Nat → String → Except Unit Nat
  encodeJpeg : Nat → Except Unit (List Nat)
  uploadPoster : String → List Nat → Except Unit Unit
  addLabelResult : String → String → Except Unit Unit

/-- The success message: `SUCCÈS` followed by the quoted title. -/
def successMsg (title : String) : String :=
  "✅ SUCCÈS : " ++ apos ++ title ++ apos

/-- The shared tail of every pipeline: upload the encoded poster; on success
attempt the "Rustizarr" label set (whose own failure is ignored) and report
success; on failure report the upload error and perform no label set. -/
def uploadAndLabel (w : PipelineWorld) (key : String) (bytes : List Nat)
    (okMsg errMsg : String) : List ServerAction × Except String String :=
  match w.uploadPoster key bytes with
  | .ok _ => ([.upload key, .addLabel key "Rustizarr"], .ok okMsg)
  | .error _ => ([.upload key], .error errMsg)

/-- `if let Ok(img) = stage { poster = img }`: keep the stage output on
success, keep the input on failure. -/
def tryStage (step : Except Unit Nat) (fallback : Nat) : Nat :=
  match step with
  | .ok img => img
  | .error _ => fallback

/-- The `tmdb_id_opt` computation shared by `process_movie` and
`process_movie_logic`: hard-coded override first, extractor second. -/
def movieTmdbId (m : PlexMovie) : Option String :=
  match get_forced_tmdb_id m.title with
  | some forcedId => some forcedId
  | none => extract_tmdb_id m

/-- The `final_url` resolution shared by the movie and show pipelines:
textless poster first, standard poster as fallback, `none` when the TMDB
call errors or neither exists. -/
def resolvePosterUrl (w : PipelineWorld) : Option String :=
  match w.getTextlessPoster with
  | .ok (some url) => some url
  | .ok none =>
    match w.getStandardPoster with
    | .ok (some stdUrl) => some stdUrl
    | _ => none
  | .error _ => none

/-- Top-left resolution overlay stage (first media entry only). -/
def resolutionStage (w : PipelineWorld) (m : PlexMovie) (poster : Nat) : Nat :=
  match m.media with
  | some (media0 :: _) =>
    match get_resolution_filename media0 with
    | some resFile => tryStage (w.addOverlay poster resFile) poster
    | none => poster
  | _ => poster

/-- Top-left edition overlay stage. -/
def editionStage (w : PipelineWorld) (m : PlexMovie) (poster : Nat) : Nat :=
  match get_edition_filename m with
  | some editionFile => tryStage (w.addOverlay poster editionFile) poster
  | none => poster

/-- Bottom-left codec-combo overlay stage (first media entry only). -/
def codecStage (w : PipelineWorld) (m : PlexMovie) (poster : Nat) : Nat :=
  match m.media with
  | some (media0 :: _) =>
    match get_codec_combo_filename media0 with
    | some audioFile => tryStage (w.addOverlay poster audioFile) poster
    | none => poster
  | _ => poster

/-- Bottom-right audience-score overlay stage. -/
def audienceStage (w : PipelineWorld) (rating : Option ℚ) (poster : Nat) : Nat :=
  match rating with
  | some r =>
    tryStage (w.addOverlayBottomRight poster (get_audience_badge_filename r)) poster
  | none => poster

/-- The movie border step: recently-added or inner glow; `none` when
`is_recently_added` panicked. -/
def movieBorderStep (w : PipelineWorld) (isRecent : Option Bool)
    (poster : Nat) : Option (Except Unit Nat) :=
  match isRecent with
  | none => none
  | some recent =>
    some (if recent then w.addStatusBorder poster "recently_added.png"
      else w.addInnerGlowBorder poster)

/-- The show/season border step: status border first, then recently-added,
then inner glow; `none` when `is_recently_added` panicked. -/
def showBorderStep (w : PipelineWorld) (showStatus : Option String)
    (isRecent : Option Bool) (poster : Nat) : Option (Except Unit Nat) :=
  match showStatus with
  | some st => some (w.addStatusBorder poster (get_status_filename st))
  | none =>
    match isRecent with
    | none => none
    | some recent =>
      some (if recent then w.addStatusBorder poster "recently_added.png"
        else w.addInnerGlowBorder poster)

/-- `process_movie` (processor.rs lines 14–154), with the poster raster
abstracted and the server mutations collected in a trace.  The outer `none`
is the `is_recently_added` underflow panic; the `Except` is the
`anyhow::Result<String>` of the function. -/
def process_movie (w : PipelineWorld) (now : Nat) (movie : PlexMovie) :
    Option (List ServerAction × Except String String) :=
  match movieTmdbId movie with
  | none => some ([], .ok "Film ignoré ou échec partiel")
  | some _tmdbId =>
    match resolvePosterUrl w with
    | none => some ([], .ok "Film ignoré ou échec partiel")
    | some url =>
      match w.downloadImage url with
      | .error _ => some ([], .ok "Échec téléchargement image")
      | .ok poster0 =>
        match w.addGradientMasks poster0 with
        | .error _ => some ([], .error "gradient masks")
        | .ok poster1 =>
          match w.addMovieTitleImg poster1 with
          | .error _ => some ([], .error "movie title")
          | .ok poster2 =>
            match movieBorderStep w (movie.is_recently_added now)
                (audienceStage w movie.audience_rating
                  (codecStage w movie
                    (editionStage w movie
                      (resolutionStage w movie poster2)))) with
            | none => none
            | some borderResult =>
              match borderResult with
              | .error _ => some ([], .error "border")
              | .ok poster7 =>
              match w.encodeJpeg poster7 with
              | .error _ => some ([], .error "jpeg encode")
              | .ok bytes =>
                some (uploadAndLabel w movie.rating_key bytes
                  (successMsg movie.title) "Erreur upload")

/-- `process_show` (processor.rs lines 159–257).  The upload uses `?` (its
error propagates); the label set uses `.ok()` (its error is discarded). -/
def process_show (w : PipelineWorld) (now : Nat) (tvShow : PlexShow) :
    Option (List ServerAction × Except String String) :=
  match extract_tmdb_id_from_show tvShow with
  | none => some ([], .ok "Série ignorée ou échec partiel")
  | some _tmdbId =>
    match resolvePosterUrl w with
    | none => some ([], .ok "Série ignorée ou échec partiel")
    | some url =>
      match w.downloadImage url with
      | .error _ => some ([], .ok "Échec téléchargement image")
      | .ok poster0 =>
        match w.addGradientMasks poster0 with
        | .error _ => some ([], .error "gradient masks")
        | .ok poster1 =>
          match w.addMovieTitleImg poster1 with
          | .error _ => some ([], .error "movie title")
          | .ok poster2 =>
            match showBorderStep w w.getShowStatus
                (tvShow.is_recently_added now)
                (audienceStage w tvShow.audience_rating poster2) with
            | none => none
            | some borderResult =>
              match borderResult with
              | .error _ => some ([], .error "border")
              | .ok poster4 =>
              match w.encodeJpeg poster4 with
              | .error _ => some ([], .error "jpeg encode")
              | .ok bytes =>
                some (uploadAndLabel w tvShow.rating_key bytes
                  (successMsg tvShow.title) "Echec upload Plex")

/-- `process_movie_logic` (main.rs lines 244–345): the webhook-side variant
of the movie pipeline.  Every compositor stage ignores its own failure
(`let _ = ...map(...)`), the JPEG encode is `.unwrap()` (panic, outer
`none`), a download failure falls through to the soft-skip return. -/
def process_movie_logic (w : PipelineWorld) (movie : PlexMovie) :
    Option (List ServerAction × Except String String) :=
  match movieTmdbId movie with
  | none => some ([], .ok "Film ignoré ou échec partiel")
  | some _tmdbId =>
    match resolvePosterUrl w with
    | none => some ([], .ok "Film ignoré ou échec partiel")
    | some url =>
      match w.downloadImage url with
      | .error _ => some ([], .ok "Film ignoré ou échec partiel")
      | .ok poster0 =>
        let poster1 := tryStage (w.addGradientMasks poster0) poster0
        let poster2 := tryStage (w.addInnerGlowBorder poster1) poster1
        let poster3 := tryStage (w.addMovieTitleImg poster2) poster2
        let poster4 := resolutionStage w movie poster3
        let poster5 := editionStage w movie poster4
        let poster6 := codecStage w movie poster5
        let poster7 := audienceStage w movie.audience_rating poster6
        match w.encodeJpeg poster7 with
        | .error _ => none
        | .ok bytes =>
          some (uploadAndLabel w movie.rating_key bytes
            (successMsg movie.title ++ "\n") "Erreur upload")

/-- The per-item closure of `process_library_parallel` (processor.rs lines
348–363): skip already-labelled items unless `force`. -/
def processLibraryItem (w : PipelineWorld) (now : Nat) (force : Bool)
    (movie : PlexMovie) :
    String × Option (List ServerAction × Except String String) :=
  if !force && movie.has_label "Rustizarr" then
    (movie.title, some ([], .ok "⏭️ Déjà traité"))
  else
    (movie.title, process_movie w now movie)

/-- `process_library_parallel`: the per-item outcomes of a batch run.  The
`concurrency` argument bounds `buffer_unordered` scheduling only; it does
not change any per-item outcome, so the embedded result is the outcome
list in catalog order. -/
def process_library_parallel (w : PipelineWorld) (now : Nat)
    (movies : List PlexMovie) (_concurrency : Nat) (force : Bool) :
    List (String × Option (List ServerAction × Except String String)) :=
  movies.map (processLibraryItem w now force)

/-- The steps a spawned webhook background task performs. -/
inductive TaskStep where
  | sleepSecs (n : Nat)
  | fetchDetail (key : String)
  | runPipeline (key : String)
  | invalidateCache
deriving Repr, DecidableEq

/-- Environment for one webhook background task. -/
structure WebhookWorld where
  itemDetails : Except Unit PlexMovie
  pipeline : PipelineWorld

/-- `process_single_movie_by_id` (main.rs lines 166–186): sleep 10 s, fetch
the detail of the item, run `process_movie_logic`, and invalidate the cache
exactly when the pipeline returned `Ok`. -/
def process_single_movie_by_id (w : WebhookWorld) (ratingKey : String) :
    List TaskStep :=
  [.sleepSecs 10, .fetchDetail ratingKey] ++
    match w.itemDetails with
    | .ok movie =>
      .runPipeline ratingKey ::
        (match process_movie_logic w.pipeline movie with
         | some (_, .ok _) => [.invalidateCache]
         | _ => [])
    | .error _ => []

/-- Modelled from the spec: the effect on the media server of a successful
`add_label(key, "Rustizarr")` call on the `Label` payload of the item (the server
itself is outside this repository).  The ProcessedMark invariant of the spec:
after the pipeline succeeds the item carries the "Rustizarr" tag; the
polymorphic payload is normalized to an array with the new `{tag}` object
appended. -/
def markProcessed (m : PlexMovie) : PlexMovie :=
  let existing :=
    match m.labels with
    | some v =>
      match v.asArr with
      | some xs => xs
      | none => [v]
    | none => []
  { m with labels := some (.arr (existing ++ [.obj [("tag", .str "Rustizarr")]])) }

-- ==================== Concrete sample data (used by witnesses) ====================

/-- `true` iff the string contains no space character. -/
def hasNoSpace (s : String) : Bool := !(s.toList.contains ' ')

/-- A minimal movie record. -/
def sampleMovie : PlexMovie :=
  { title := "Dune", rating_key := "1", audience_rating := none,
    guids := none, guid_str := none, year := none, media := none,
    added_at := none, labels := none }

/-- A minimal show record. -/
def sampleShow : PlexShow :=
  { title := "Dark", rating_key := "2", year := none, audience_rating := none,
    added_at := none, guid := none, label := none, media := none }

/-- A minimal season record. -/
def sampleSeason : PlexSeason :=
  { title := "Saison 2", rating_key := "3", season_number := 2,
    show_title := "Dark", show_rating_key := "2", audience_rating := none,
    added_at := none, media := none, label := none }

/-- A movie that resolves a TMDB id through its guid list. -/
def duneMovie : PlexMovie :=
  { sampleMovie with
    rating_key := "49915",
    guids := some [{ id := "tmdb://438631" }],
    added_at := some 0 }

/-- A movie already carrying the (lower-cased) "rustizarr" label. -/
def labeledMovie : PlexMovie :=
  { sampleMovie with
    labels := some (.obj [("tag", .str "RUSTIZARR")]) }

/-- An environment in which every external call succeeds. -/
def happyWorld : PipelineWorld :=
  { getTextlessPoster := .ok (some "https://image.tmdb.org/t/p/original/a.jpg"),
    getStandardPoster := .ok none,
    getShowStatus := none,
    downloadImage := fun _ => .ok 0,
    addGradientMasks := fun p => .ok p,
    addMovieTitleImg := fun p => .ok p,
    addInnerGlowBorder := fun p => .ok p,
    addStatusBorder := fun p _ => .ok p,
    addOverlay := fun p _ => .ok p,
    addOverlayBottomRight := fun p _ => .ok p,
    encodeJpeg := fun _ => .ok [1],
    uploadPoster := fun _ _ => .ok (),
    addLabelResult := fun _ _ => .ok () }

/-- Season environment in which TMDB offers both a textless season image and
a standard season `poster_path`. -/
def c1World : SeasonWorld :=
  { seasonImages := some
      [{ file_path := "/textless.png", iso_639_1 := none,
         width := 2000, height := 3000, vote_average := 5 }],
    seasonDetails := some (some "/standard.png") }

/-- The S1 media entry of the spec: a TrueHD Atmos audio stream and a
Dolby Vision + HDR10 video stream. -/
def c5Media : PlexMedia :=
  { video_resolution := some "4k",
    audio_codec := some "truehd",
    parts := some (.obj [("Stream", .arr
      [ .obj [("streamType", .num 1),
              ("displayTitle", .str "Dolby Vision · HDR10")],
        .obj [("streamType", .num 2), ("codec", .str "truehd"),
              ("title", .str "Atmos 7.1")] ])]) }

/-- A width oracle with 100 px per character (used to exhibit an over-long
single word). -/
def sampleMeasure (s : String) : Nat := 100 * s.length

-- ==================== Theorems ====================

/-- C9: the validity predicate of the library cache holds iff a last-refresh
instant exists and its elapsed time is strictly below the 300-second ttl;
`get` returns the cached movie list exactly when the predicate holds; after
`invalidate` the predicate is false and `get` returns `none`, and a later
`update` restores validity for the duration of the ttl. -/
theorem C9_library_cache :
    (∀ (c : LibraryCache) (now : Nat),
        c.is_valid now = true
          ↔ ∃ t, c.lastUpdate = some t ∧ now - t < c.cacheDuration)
  ∧ LibraryCache.new.cacheDuration = 300
  ∧ (∀ (c : LibraryCache) (now : Nat),
        c.get now = some c.movies ↔ c.is_valid now = true)
  ∧ (∀ (c : LibraryCache) (now : Nat),
        c.is_valid now = false → c.get now = none)
  ∧ (∀ (c : LibraryCache) (now : Nat),
        c.invalidate.is_valid now = false ∧ c.invalidate.get now = none)
  ∧ (∀ (c : LibraryCache) (ms : List PlexMovie) (t now : Nat),
        (c.update ms t).is_valid now = decide (now - t < c.cacheDuration)) := by
  refine ⟨?_, rfl, ?_, ?_, ?_, ?_⟩
  · intro c now
    cases h : c.lastUpdate with
    | none => simp [LibraryCache.is_valid, h]
    | some t => simp [LibraryCache.is_valid, h]
  · intro c now
    by_cases h : c.is_valid now = true <;>
      simp [LibraryCache.get, h]
  · intro c now h
    simp [LibraryCache.get, h]
  · intro c now
    simp [LibraryCache.invalidate, LibraryCache.is_valid, LibraryCache.get]
  · intro c ms t now
    simp [LibraryCache.update, LibraryCache.is_valid]

/-- C9 witness: the hypothesis-bearing conjunct evaluated at a concrete
invalid cache. -/
theorem C9_library_cache_witness :
    LibraryCache.new.is_valid 0 = false ∧ LibraryCache.new.get 0 = none :=
  ⟨by decide, C9_library_cache.2.2.2.1 LibraryCache.new 0 (by decide)⟩

/-- C3 counterexample: the cli computes `parallel.min(10)` with no lower
clamp, so the user-supplied value 0 yields an effective concurrency of 0 —
it is not raised to 1 and lies outside [1, 10]. -/
theorem C3_counterexample :
    scanConcurrency 0 = 0 ∧ ¬ (1 ≤ scanConcurrency 0) := by decide

/-- C3 (amended): the effective dispatcher concurrency is `min parallel 10`:
it never exceeds 10, every input ≥ 1 lands in [1, 10], every input above 10
is lowered to 10, and the input 0 yields 0 (it is not raised to 1). -/
theorem C3_concurrency_clamp :
    (∀ p : Nat, scanConcurrency p ≤ 10)
  ∧ (∀ p : Nat, 1 ≤ p → 1 ≤ scanConcurrency p ∧ scanConcurrency p ≤ 10)
  ∧ (∀ p : Nat, 10 < p → scanConcurrency p = 10)
  ∧ scanConcurrency 0 = 0 := by
  refine ⟨?_, ?_, ?_, rfl⟩ <;> (intro p; simp [scanConcurrency]; try omega)

/-- C3 witness: the clamp evaluated at 3 and at 11. -/
theorem C3_concurrency_clamp_witness :
    (1 ≤ scanConcurrency 3 ∧ scanConcurrency 3 ≤ 10)
  ∧ scanConcurrency 11 = 10 :=
  ⟨C3_concurrency_clamp.2.1 3 (by decide),
   C3_concurrency_clamp.2.2.1 11 (by decide)⟩

/-- C10: `is_recently_added` is total only when the added-at
timestamp of the item is at most `now`: a strictly-future `added_at` hits the unguarded
underflow of the `u64` subtraction (the `none` branch of the embedding); an
`added_at` at or before `now` always produces a value; an absent `added_at`
produces `false` — for movies, shows and seasons alike. -/
theorem C10_recently_added_partiality :
    (∀ (now a : Nat) (m : PlexMovie), now < a →
        PlexMovie.is_recently_added now { m with added_at := some a } = none)
  ∧ (∀ (now a : Nat) (s : PlexShow), now < a →
        PlexShow.is_recently_added now { s with added_at := some a } = none)
  ∧ (∀ (now a : Nat) (se : PlexSeason), now < a →
        PlexSeason.is_recently_added now { se with added_at := some a } = none)
  ∧ (∀ (now a : Nat) (m : PlexMovie), a ≤ now →
        (PlexMovie.is_recently_added now { m with added_at := some a }).isSome
          = true)
  ∧ (∀ (now : Nat) (m : PlexMovie),
        PlexMovie.is_recently_added now { m with added_at := none }
          = some false)
  ∧ (∀ (now : Nat) (s : PlexShow),
        PlexShow.is_recently_added now { s with added_at := none }
          = some false)
  ∧ (∀ (now : Nat) (se : PlexSeason),
        PlexSeason.is_recently_added now { se with added_at := none }
          = some false) := by
  refine ⟨?_, ?_, ?_, ?_, ?_, ?_, ?_⟩ <;>
    (intro now a
     first
      | (intro m h
         simp [PlexMovie.is_recently_added, PlexShow.is_recently_added,
               PlexSeason.is_recently_added, isRecentlyAddedAux]
         omega)
      | (simp [PlexMovie.is_recently_added, PlexShow.is_recently_added,
               PlexSeason.is_recently_added, isRecentlyAddedAux]))

/-- C10 witness: a concrete movie added in the future underflows, and one
added in the past evaluates. -/
theorem C10_recently_added_partiality_witness :
    PlexMovie.is_recently_added 5 { sampleMovie with added_at := some 10 }
      = none
  ∧ (PlexMovie.is_recently_added 10 { sampleMovie with added_at := some 5 }).isSome
      = true :=
  ⟨C10_recently_added_partiality.1 5 10 sampleMovie (by decide),
   C10_recently_added_partiality.2.2.2.1 10 5 sampleMovie (by decide)⟩


/-- Arithmetic core of the freshness window: for `added_at = now - k·86400`
(with `k·86400 ≤ now`), the computed day count is exactly `k`. -/
theorem isRecentlyAddedAux_at_days (now k limit : Nat)
    (h : k * 86400 ≤ now) :
    isRecentlyAddedAux now (some (now - k * 86400)) limit
      = some (decide (k ≤ limit)) := by
  have h2 : now - (now - k * 86400) = k * 86400 := Nat.sub_sub_self h
  have h3 : k * 86400 / 86400 = k := by omega
  simp only [isRecentlyAddedAux]
  rw [if_pos (Nat.sub_le now (k * 86400)), h2, h3]

/-- C6: an item with `added_at = now - k·86400` and no show status takes the
recently-added border iff `k ≤ 7` for a movie, and iff `k ≤ 30` for a show
or a season. -/
theorem C6_freshness_window :
    ∀ (now k : Nat) (m : PlexMovie) (s : PlexShow) (se : PlexSeason),
      k * 86400 ≤ now →
      ((movieBorder now { m with added_at := some (now - k * 86400) }
          = some Border.recentlyAdded) ↔ k ≤ 7)
      ∧ ((showBorder now none { s with added_at := some (now - k * 86400) }
          = some Border.recentlyAdded) ↔ k ≤ 30)
      ∧ ((seasonBorder now none { se with added_at := some (now - k * 86400) }
          = some Border.recentlyAdded) ↔ k ≤ 30) := by
  intro now k m s se h
  have hm := isRecentlyAddedAux_at_days now k 7 h
  have hs := isRecentlyAddedAux_at_days now k 30 h
  refine ⟨?_, ?_, ?_⟩
  · by_cases h7 : k ≤ 7 <;>
      simp [movieBorder, PlexMovie.is_recently_added, hm, h7]
  · by_cases h30 : k ≤ 30 <;>
      simp [showBorder, PlexShow.is_recently_added, hs, h30]
  · by_cases h30 : k ≤ 30 <;>
      simp [seasonBorder, PlexSeason.is_recently_added, hs, h30]

/-- C6 witness: the window evaluated at k = 3 (inside both windows) for a
concrete now. -/
theorem C6_freshness_window_witness :
    ((movieBorder 604800 { sampleMovie with added_at := some (604800 - 3 * 86400) }
        = some Border.recentlyAdded) ↔ 3 ≤ 7)
  ∧ ((showBorder 604800 none { sampleShow with added_at := some (604800 - 3 * 86400) }
        = some Border.recentlyAdded) ↔ 3 ≤ 30) :=
  ⟨(C6_freshness_window 604800 3 sampleMovie sampleShow sampleSeason (by decide)).1,
   (C6_freshness_window 604800 3 sampleMovie sampleShow sampleSeason (by decide)).2.1⟩

/-- C1: `process_season` resolves its poster through `get_season_poster`
(the standard season `poster_path`) and never consults the textless season
images, although `get_season_textless_poster` — implementing exactly the
documented preference — exists unused in the repository: in an environment
offering both, the resolved URL is the standard one and differs from the
textless one. -/
theorem C1_season_poster_ignores_textless :
    processSeasonPosterUrl c1World
      = some "https://image.tmdb.org/t/p/original/standard.png"
  ∧ get_season_textless_poster c1World
      = some "https://image.tmdb.org/t/p/original/textless.png"
  ∧ processSeasonPosterUrl c1World ≠ get_season_textless_poster c1World := by
  refine ⟨rfl, rfl, ?_⟩
  decide

/-- C5: whenever the streams payload was accessible, the video component of
the codec-combo filename is the first match of the precedence table
DV+HDR, DV+Plus, DV, Plus, HDR, and the audio component is the first match
of TrueHD+Atmos, TrueHD, DTS-X, DTS-HD, Atmos, DigitalPlus; on the S1 media
entry (TrueHD audio titled "Atmos 7.1", video display title
"Dolby Vision · HDR10") the filename is `DV-HDR-TrueHD-Atmos.png`. -/
theorem C5_codec_combo_precedence :
    (∀ f : CodecFlags, f.hasStreamsAccess = true →
        codecVideoPart f = specFirstMatch (specVideoTable f))
  ∧ (∀ (f : CodecFlags) (fb : String), f.hasStreamsAccess = true →
        codecAudioPart f fb = specFirstMatch (specAudioTable f))
  ∧ get_codec_combo_filename c5Media = some "DV-HDR-TrueHD-Atmos.png" := by
  refine ⟨?_, ?_, by decide⟩
  · intro f h
    obtain ⟨hsa, dv, hdr, plus, atm, thd, dtshd, dtsx, ddp, fac⟩ := f
    cases h
    cases dv <;> cases hdr <;> cases plus <;> rfl
  · intro f fb h
    obtain ⟨hsa, dv, hdr, plus, atm, thd, dtshd, dtsx, ddp, fac⟩ := f
    cases h
    cases atm <;> cases thd <;> cases dtshd <;> cases dtsx <;> cases ddp <;> rfl

/-- C5 witness: the precedence equations evaluated at a concrete flag set
with every video and audio capability present. -/
theorem C5_codec_combo_precedence_witness :
    codecVideoPart
        { hasStreamsAccess := true, isDv := true, isHdr := true,
          isPlus := true, hasAtmos := true, hasTruehd := true,
          hasDtsHd := true, hasDtsX := true, hasDdPlus := true,
          foundAudioCodec := "truehd" }
      = specFirstMatch (specVideoTable
        { hasStreamsAccess := true, isDv := true, isHdr := true,
          isPlus := true, hasAtmos := true, hasTruehd := true,
          hasDtsHd := true, hasDtsX := true, hasDdPlus := true,
          foundAudioCodec := "truehd" })
  ∧ codecAudioPart
        { hasStreamsAccess := true, isDv := true, isHdr := true,
          isPlus := true, hasAtmos := true, hasTruehd := true,
          hasDtsHd := true, hasDtsX := true, hasDdPlus := true,
          foundAudioCodec := "truehd" } "truehd"
      = specFirstMatch (specAudioTable
        { hasStreamsAccess := true, isDv := true, isHdr := true,
          isPlus := true, hasAtmos := true, hasTruehd := true,
          hasDtsHd := true, hasDtsX := true, hasDdPlus := true,
          foundAudioCodec := "truehd" }) :=
  ⟨C5_codec_combo_precedence.1 _ rfl,
   C5_codec_combo_precedence.2.1 _ "truehd" rfl⟩

/-- C2 counterexample: a `library.new` payload whose Metadata type is
`"show"` spawns no background task — the handler reacts to `"movie"` only. -/
theorem C2_counterexample_show_ignored :
    handle_plex_webhook
      { event := "library.new",
        metadata := some { rating_key := "99", media_type := "show" } }
      = none := rfl

/-- C2 (amended): a `library.new` payload of type `"movie"` spawns a
background task for its ratingKey, while any other event or any other
Metadata type (including `"show"`) spawns none; the spawned task first
sleeps 10 seconds, then fetches the item detail, runs the per-item pipeline
exactly when the fetch succeeded, and invalidates the catalog cache exactly
when the pipeline returned `Ok`. -/
theorem C2_webhook_dispatch :
    (∀ key : String,
        handle_plex_webhook
          { event := "library.new",
            metadata := some { rating_key := key, media_type := "movie" } }
          = some key)
  ∧ (∀ (ev : String) (meta : Option WebhookMetadata), ev ≠ "library.new" →
        handle_plex_webhook { event := ev, metadata := meta } = none)
  ∧ (∀ (key ty : String), ty ≠ "movie" →
        handle_plex_webhook
          { event := "library.new",
            metadata := some { rating_key := key, media_type := ty } }
          = none)
  ∧ (∀ (w : WebhookWorld) (key : String),
        (process_single_movie_by_id w key).take 2
          = [TaskStep.sleepSecs 10, TaskStep.fetchDetail key])
  ∧ (∀ (w : WebhookWorld) (key : String),
        TaskStep.runPipeline key ∈ process_single_movie_by_id w key
          ↔ ∃ mv, w.itemDetails = Except.ok mv)
  ∧ (∀ (w : WebhookWorld) (key : String),
        TaskStep.invalidateCache ∈ process_single_movie_by_id w key
          ↔ ∃ mv tr s, w.itemDetails = Except.ok mv
              ∧ process_movie_logic w.pipeline mv = some (tr, Except.ok s)) := by
  refine ⟨fun key => rfl, ?_, ?_, ?_, ?_, ?_⟩
  · intro ev meta h
    simp [handle_plex_webhook, h]
  · intro key ty h
    simp [handle_plex_webhook, h]
  · intro w key
    cases h : w.itemDetails <;> simp [process_single_movie_by_id, h]
  · intro w key
    cases h : w.itemDetails <;> simp [process_single_movie_by_id, h]
  · intro w key
    cases h : w.itemDetails with
    | error e => simp [process_single_movie_by_id, h]
    | ok mv =>
      cases h2 : process_movie_logic w.pipeline mv with
      | none => simp [process_single_movie_by_id, h, h2]
      | some p =>
        obtain ⟨tr, res⟩ := p
        cases res <;> simp [process_single_movie_by_id, h, h2]

/-- C2 witness: the dispatch decision and the task behaviour evaluated at
concrete payloads and a concrete environment. -/
theorem C2_webhook_dispatch_witness :
    handle_plex_webhook
      { event := "library.new",
        metadata := some { rating_key := "99", media_type := "movie" } }
      = some "99"
  ∧ handle_plex_webhook { event := "media.play", metadata := none } = none
  ∧ TaskStep.invalidateCache ∈
      process_single_movie_by_id
        { itemDetails := Except.ok sampleMovie, pipeline := happyWorld } "99" :=
  ⟨C2_webhook_dispatch.1 "99",
   C2_webhook_dispatch.2.1 "media.play" none (by decide),
   (C2_webhook_dispatch.2.2.2.2.2
       { itemDetails := Except.ok sampleMovie, pipeline := happyWorld } "99").mpr
     ⟨sampleMovie, [], "Film ignoré ou échec partiel", rfl, rfl⟩⟩


/-- Every `process_movie` run either touches the server not at all or ends
in `uploadAndLabel`. -/
theorem process_movie_shape (w : PipelineWorld) (now : Nat) (m : PlexMovie)
    (tr : List ServerAction) (res : Except String String)
    (h : process_movie w now m = some (tr, res)) :
    tr = []
  ∨ ∃ bytes, (tr, res)
      = uploadAndLabel w m.rating_key bytes
          (successMsg m.title) "Erreur upload" := by
  unfold process_movie at h
  cases h1 : movieTmdbId m with
  | none => rw [h1] at h; simp only [] at h; cases h; exact Or.inl rfl
  | some tid =>
    rw [h1] at h; simp only [] at h
    cases h2 : resolvePosterUrl w with
    | none => rw [h2] at h; simp only [] at h; cases h; exact Or.inl rfl
    | some url =>
      rw [h2] at h; simp only [] at h
      cases h3 : w.downloadImage url with
      | error e => rw [h3] at h; simp only [] at h; cases h; exact Or.inl rfl
      | ok poster0 =>
        rw [h3] at h; simp only [] at h
        cases h4 : w.addGradientMasks poster0 with
        | error e => rw [h4] at h; simp only [] at h; cases h; exact Or.inl rfl
        | ok poster1 =>
          rw [h4] at h; simp only [] at h
          cases h5 : w.addMovieTitleImg poster1 with
          | error e => rw [h5] at h; simp only [] at h; cases h; exact Or.inl rfl
          | ok poster2 =>
            rw [h5] at h; simp only [] at h
            cases h6 : movieBorderStep w (m.is_recently_added now)
                (audienceStage w m.audience_rating
                  (codecStage w m
                    (editionStage w m
                      (resolutionStage w m poster2)))) with
            | none =>
              rw [h6] at h; simp only [] at h
              exact Option.noConfusion h
            | some borderResult =>
              rw [h6] at h; simp only [] at h
              cases borderResult with
              | error e => simp only [] at h; cases h; exact Or.inl rfl
              | ok poster7 =>
                simp only [] at h
                cases h7 : w.encodeJpeg poster7 with
                | error e => rw [h7] at h; simp only [] at h; cases h; exact Or.inl rfl
                | ok bytes =>
                  rw [h7] at h; simp only [] at h
                  injection h with h8
                  exact Or.inr ⟨bytes, h8.symm⟩

/-- Every `process_show` run either touches the server not at all or ends
in `uploadAndLabel`. -/
theorem process_show_shape (w : PipelineWorld) (now : Nat) (s : PlexShow)
    (tr : List ServerAction) (res : Except String String)
    (h : process_show w now s = some (tr, res)) :
    tr = []
  ∨ ∃ bytes, (tr, res)
      = uploadAndLabel w s.rating_key bytes
          (successMsg s.title) "Echec upload Plex" := by
  unfold process_show at h
  cases h1 : extract_tmdb_id_from_show s with
  | none => rw [h1] at h; simp only [] at h; cases h; exact Or.inl rfl
  | some tid =>
    rw [h1] at h; simp only [] at h
    cases h2 : resolvePosterUrl w with
    | none => rw [h2] at h; simp only [] at h; cases h; exact Or.inl rfl
    | some url =>
      rw [h2] at h; simp only [] at h
      cases h3 : w.downloadImage url with
      | error e => rw [h3] at h; simp only [] at h; cases h; exact Or.inl rfl
      | ok poster0 =>
        rw [h3] at h; simp only [] at h
        cases h4 : w.addGradientMasks poster0 with
        | error e => rw [h4] at h; simp only [] at h; cases h; exact Or.inl rfl
        | ok poster1 =>
          rw [h4] at h; simp only [] at h
          cases h5 : w.addMovieTitleImg poster1 with
          | error e => rw [h5] at h; simp only [] at h; cases h; exact Or.inl rfl
          | ok poster2 =>
            rw [h5] at h; simp only [] at h
            cases h6 : showBorderStep w w.getShowStatus
                (s.is_recently_added now)
                (audienceStage w s.audience_rating poster2) with
            | none =>
              rw [h6] at h; simp only [] at h
              exact Option.noConfusion h
            | some borderResult =>
              rw [h6] at h; simp only [] at h
              cases borderResult with
              | error e => simp only [] at h; cases h; exact Or.inl rfl
              | ok poster4 =>
                simp only [] at h
                cases h7 : w.encodeJpeg poster4 with
                | error e => rw [h7] at h; simp only [] at h; cases h; exact Or.inl rfl
                | ok bytes =>
                  rw [h7] at h; simp only [] at h
                  injection h with h8
                  exact Or.inr ⟨bytes, h8.symm⟩

/-- Behaviour of the shared pipeline tail. -/
theorem uploadAndLabel_spec (w : PipelineWorld) (key : String)
    (bytes : List Nat) (okMsg errMsg : String) :
    (ServerAction.addLabel key "Rustizarr"
        ∈ (uploadAndLabel w key bytes okMsg errMsg).1 →
      uploadAndLabel w key bytes okMsg errMsg
        = ([ServerAction.upload key, ServerAction.addLabel key "Rustizarr"],
           Except.ok okMsg))
  ∧ (w.uploadPoster key bytes = Except.error () →
      ∀ k t, ServerAction.addLabel k t ∉ (uploadAndLabel w key bytes okMsg errMsg).1) := by
  cases hup : w.uploadPoster key bytes with
  | ok u => cases u; simp [uploadAndLabel, hup]
  | error e => cases e; simp [uploadAndLabel, hup]

/-- C7: in every pipeline run (movie and show alike), the "Rustizarr" label
action occurs only in the trace `[upload, addLabel]` — i.e. after a
successful upload — and such a run reports success; if the upload call
fails, no label action occurs at all; and the outcome of the run does not depend
on the result of the label-set call. -/
theorem C7_label_only_after_upload :
    (∀ (w : PipelineWorld) (now : Nat) (m : PlexMovie)
        (tr : List ServerAction) (res : Except String String),
        process_movie w now m = some (tr, res) →
        ((ServerAction.addLabel m.rating_key "Rustizarr" ∈ tr →
            tr = [ServerAction.upload m.rating_key,
                  ServerAction.addLabel m.rating_key "Rustizarr"]
            ∧ ∃ msg, res = Except.ok msg)
         ∧ ((∀ b, w.uploadPoster m.rating_key b = Except.error ()) →
              ∀ k t, ServerAction.addLabel k t ∉ tr)))
  ∧ (∀ (w : PipelineWorld) (now : Nat) (s : PlexShow)
        (tr : List ServerAction) (res : Except String String),
        process_show w now s = some (tr, res) →
        ((ServerAction.addLabel s.rating_key "Rustizarr" ∈ tr →
            tr = [ServerAction.upload s.rating_key,
                  ServerAction.addLabel s.rating_key "Rustizarr"]
            ∧ ∃ msg, res = Except.ok msg)
         ∧ ((∀ b, w.uploadPoster s.rating_key b = Except.error ()) →
              ∀ k t, ServerAction.addLabel k t ∉ tr)))
  ∧ (∀ (w : PipelineWorld) (f g : String → String → Except Unit Unit)
        (now : Nat) (m : PlexMovie),
        process_movie { w with addLabelResult := f } now m
          = process_movie { w with addLabelResult := g } now m)
  ∧ (∀ (w : PipelineWorld) (f g : String → String → Except Unit Unit)
        (now : Nat) (s : PlexShow),
        process_show { w with addLabelResult := f } now s
          = process_show { w with addLabelResult := g } now s) := by
  refine ⟨?_, ?_, fun w f g now m => rfl, fun w f g now s => rfl⟩
  · intro w now m tr res h
    rcases process_movie_shape w now m tr res h with h0 | ⟨bytes, heq⟩
    · subst h0
      exact ⟨fun hmem => absurd hmem (by simp), fun _ k t => by simp⟩
    · have htr : tr = (uploadAndLabel w m.rating_key bytes
          (successMsg m.title) "Erreur upload").1 := by rw [← heq]
      have hres : res = (uploadAndLabel w m.rating_key bytes
          (successMsg m.title) "Erreur upload").2 := by rw [← heq]
      constructor
      · intro hmem
        have h1 := (uploadAndLabel_spec w m.rating_key bytes
          (successMsg m.title) "Erreur upload").1 (htr ▸ hmem)
        rw [htr, hres, h1]
        exact ⟨rfl, successMsg m.title, rfl⟩
      · intro hup k t
        rw [htr]
        exact (uploadAndLabel_spec w m.rating_key bytes
          (successMsg m.title) "Erreur upload").2 (hup bytes) k t
  · intro w now s tr res h
    rcases process_show_shape w now s tr res h with h0 | ⟨bytes, heq⟩
    · subst h0
      exact ⟨fun hmem => absurd hmem (by simp), fun _ k t => by simp⟩
    · have htr : tr = (uploadAndLabel w s.rating_key bytes
          (successMsg s.title) "Echec upload Plex").1 := by rw [← heq]
      have hres : res = (uploadAndLabel w s.rating_key bytes
          (successMsg s.title) "Echec upload Plex").2 := by rw [← heq]
      constructor
      · intro hmem
        have h1 := (uploadAndLabel_spec w s.rating_key bytes
          (successMsg s.title) "Echec upload Plex").1 (htr ▸ hmem)
        rw [htr, hres, h1]
        exact ⟨rfl, successMsg s.title, rfl⟩
      · intro hup k t
        rw [htr]
        exact (uploadAndLabel_spec w s.rating_key bytes
          (successMsg s.title) "Echec upload Plex").2 (hup bytes) k t

/-- C7 witness: a fully successful movie run has the trace
`[upload, addLabel]` and an `Ok` outcome. -/
theorem C7_label_only_after_upload_witness :
    ([ServerAction.upload "49915", ServerAction.addLabel "49915" "Rustizarr"]
      = [ServerAction.upload "49915", ServerAction.addLabel "49915" "Rustizarr"])
  ∧ ∃ msg, (Except.ok (successMsg "Dune") : Except String String)
      = Except.ok msg :=
  (C7_label_only_after_upload.1 happyWorld 0 duneMovie
      [ServerAction.upload "49915", ServerAction.addLabel "49915" "Rustizarr"]
      (Except.ok (successMsg "Dune")) rfl).1 (by decide)

/-- C8: an item already carrying the "Rustizarr" label (matched
case-insensitively) is skipped by a `force = false` run with the
"⏭️ Déjà traité" outcome and an empty server trace (no upload, no label
mutation); in particular an item marked by a successful first run — the
server appends the label tag object — is skipped by the second run. -/
theorem C8_skip_already_processed :
    (∀ (w : PipelineWorld) (now : Nat) (m : PlexMovie),
        m.has_label "Rustizarr" = true →
        processLibraryItem w now false m
          = (m.title, some ([], Except.ok "⏭️ Déjà traité")))
  ∧ strContains "⏭️ Déjà traité" "⏭️" = true
  ∧ (∀ s : String,
        hasLabelValue (some (.obj [("tag", .str s)])) "Rustizarr"
          = (strToLower s == "rustizarr"))
  ∧ (∀ m : PlexMovie, (markProcessed m).has_label "Rustizarr" = true)
  ∧ (∀ (w : PipelineWorld) (now : Nat) (m : PlexMovie),
        processLibraryItem w now false (markProcessed m)
          = (m.title, some ([], Except.ok "⏭️ Déjà traité"))) := by
  have hskip : ∀ (w : PipelineWorld) (now : Nat) (m : PlexMovie),
      m.has_label "Rustizarr" = true →
      processLibraryItem w now false m
        = (m.title, some ([], Except.ok "⏭️ Déjà traité")) := by
    intro w now m h
    simp [processLibraryItem, h]
  have hmark : ∀ m : PlexMovie, (markProcessed m).has_label "Rustizarr" = true := by
    intro m
    show hasLabelValue _ _ = true
    simp only [markProcessed, hasLabelValue, Json.asArr, List.any_append]
    simp [labelEntryMatches, Json.get, Json.asStr]
  refine ⟨hskip, by decide, fun s => rfl, hmark, ?_⟩
  intro w now m
  exact hskip w now (markProcessed m) (hmark m)

/-- C8 witness: a concretely labelled movie (upper-case stored tag) is
skipped with the "⏭️" outcome. -/
theorem C8_skip_already_processed_witness :
    labeledMovie.has_label "Rustizarr" = true
  ∧ processLibraryItem happyWorld 0 false labeledMovie
      = (labeledMovie.title, some ([], Except.ok "⏭️ Déjà traité")) :=
  ⟨by decide,
   C8_skip_already_processed.1 happyWorld 0 labeledMovie (by decide)⟩

/-- Words produced by the whitespace split contain no whitespace. -/
theorem splitWsAux_no_ws :
    ∀ (cs acc : List Char), (∀ c ∈ acc, c.isWhitespace = false) →
      ∀ l ∈ splitWsAux cs acc, ∀ c ∈ l, c.isWhitespace = false := by
  intro cs
  induction cs with
  | nil =>
    intro acc hacc l hl c hc
    unfold splitWsAux at hl
    by_cases hae : acc.isEmpty
    · simp [hae] at hl
    · rw [if_neg hae] at hl
      rcases List.mem_singleton.mp hl with rfl
      exact hacc c (List.mem_reverse.mp hc)
  | cons c0 rest ih =>
    intro acc hacc l hl c hc
    unfold splitWsAux at hl
    by_cases hw : c0.isWhitespace
    · rw [if_pos hw] at hl
      by_cases hae : acc.isEmpty
      · rw [if_pos hae] at hl
        exact ih [] (by simp) l hl c hc
      · rw [if_neg hae] at hl
        rcases List.mem_cons.mp hl with h1 | h2
        · subst h1
          exact hacc c (List.mem_reverse.mp hc)
        · exact ih [] (by simp) l h2 c hc
    · rw [if_neg hw] at hl
      refine ih (c0 :: acc) ?_ l hl c hc
      intro d hd
      rcases List.mem_cons.mp hd with h1 | h2
      · subst h1
        simpa using hw
      · exact hacc d h2


/-- The integer wrap test agrees with the rational 92%-of-width bound. -/
theorem fits_iff_le_maxLineWidth (n imgWidth : Nat) :
    ¬ (100 * n > 92 * imgWidth) ↔ ((n : ℚ) ≤ maxLineWidth imgWidth) := by
  rw [not_lt, maxLineWidth, ← mul_div_assoc,
    le_div_iff₀ (by norm_num : (0 : ℚ) < 100)]
  constructor
  · intro h
    calc ((n : ℚ)) * 100 = ((100 * n : Nat) : ℚ) := by push_cast; ring
    _ ≤ ((92 * imgWidth : Nat) : ℚ) := by exact_mod_cast h
    _ = (imgWidth : ℚ) * 92 := by push_cast; ring
  · intro h
    have h2 : ((100 * n : Nat) : ℚ) ≤ ((92 * imgWidth : Nat) : ℚ) := by
      calc ((100 * n : Nat) : ℚ) = (n : ℚ) * 100 := by push_cast; ring
      _ ≤ (imgWidth : ℚ) * 92 := h
      _ = ((92 * imgWidth : Nat) : ℚ) := by push_cast; ring
    exact_mod_cast h2

/-- Every word of `splitWhitespace` is space-free. -/
theorem splitWhitespace_no_space (s : String) :
    ∀ w ∈ splitWhitespace s, hasNoSpace w = true := by
  intro w hw
  obtain ⟨l, hl, rfl⟩ := List.mem_map.mp hw
  have hnw := splitWsAux_no_ws s.toList [] (by simp) l hl
  simp only [hasNoSpace, Bool.not_eq_true', ← Bool.not_eq_true]
  intro hsp
  have hsp2 : ' ' ∈ l := by simpa [List.contains] using hsp
  have hws := hnw ' ' hsp2
  exact absurd hws (by decide)

/-- Soundness of the greedy wrap: starting from a current line that is
empty, fits, or is a single word, every emitted line fits the width bound
or is a single word (the loop never splits a word). -/
theorem wrapWords_sound (measure : String → Nat) (imgWidth : Nat) :
    ∀ (ws : List String) (cur : String),
      (∀ w ∈ ws, hasNoSpace w = true) →
      (cur = "" ∨ ¬ (100 * measure cur > 92 * imgWidth)
        ∨ hasNoSpace cur = true) →
      ∀ line ∈ wrapWords measure imgWidth ws cur,
        ¬ (100 * measure line > 92 * imgWidth) ∨ hasNoSpace line = true := by
  intro ws
  induction ws with
  | nil =>
    intro cur hws hcur line hl
    unfold wrapWords at hl
    by_cases hc : cur = ""
    · simp [hc] at hl
    · rw [if_pos (by simpa using hc)] at hl
      rcases List.mem_singleton.mp hl with rfl
      rcases hcur with h | h | h
      · exact absurd h hc
      · exact Or.inl h
      · exact Or.inr h
  | cons w rest ih =>
    intro cur hws hcur line hl
    unfold wrapWords at hl
    by_cases hgt :
        100 * measure (if cur == "" then w else cur ++ " " ++ w)
          > 92 * imgWidth
    · rw [if_pos hgt] at hl
      rcases List.mem_append.mp hl with h1 | h2
      · by_cases hc : cur = ""
        · simp [hc] at h1
        · rw [if_pos (by simpa using hc)] at h1
          rcases List.mem_singleton.mp h1 with rfl
          rcases hcur with h | h | h
          · exact absurd h hc
          · exact Or.inl h
          · exact Or.inr h
      · exact ih w (fun x hx => hws x (List.mem_cons_of_mem _ hx))
          (Or.inr (Or.inr (hws w (List.mem_cons_self _ _))))
          line h2
    · rw [if_neg hgt] at hl
      exact ih (if cur == "" then w else cur ++ " " ++ w)
        (fun x hx => hws x (List.mem_cons_of_mem _ hx))
        (Or.inr (Or.inl hgt))
        line hl

/-- C4 counterexample: the greedy wrap never splits a single word, so a
title consisting of one word whose measured width exceeds 92% of the canvas
width is emitted as a single line wider than the bound (here with a width
oracle of 100 px per character on a 2000 px canvas: the line measures
2000 px, the bound is 1840 px). -/
theorem C4_counterexample_overlong_word :
    add_movie_title_lines sampleMeasure 2000 "Supercalifragilistic"
      = ["SUPERCALIFRAGILISTIC"]
  ∧ ¬ ((sampleMeasure "SUPERCALIFRAGILISTIC" : ℚ) ≤ maxLineWidth 2000) := by
  constructor
  · rfl
  · rw [← fits_iff_le_maxLineWidth]
    decide

/-- C4 (amended): the title stage upper-cases the title and wraps it
greedily so that every produced line fits 92% of the canvas width or is a
single word (an over-wide single word overflows on its own line); the line
height is 0.85 × the 250 px font size; the bottom of the text block —
`start_y` plus the total text height — sits exactly 430 px above the canvas
bottom; and the x-position of each line is the centering offset
`(width - measured) / 2`. -/
theorem C4_title_layout :
    (∀ (measure : String → Nat) (imgWidth : Nat) (title : String),
        ∀ line ∈ add_movie_title_lines measure imgWidth title,
          (measure line : ℚ) ≤ maxLineWidth imgWidth ∨ hasNoSpace line = true)
  ∧ titleLineHeight = (85 / 100) * titleFontSize
  ∧ (∀ (imgHeight numLines : Nat),
        titleStartY imgHeight numLines + numLines * titleLineHeight
          = (imgHeight : ℚ) - 430)
  ∧ (∀ (measure : String → Nat) (imgWidth : Nat) (line : String),
        measure line ≤ imgWidth →
        titleLineX measure imgWidth line
          = (((imgWidth - measure line : Nat) / 2 : Nat) : Int)) := by
  refine ⟨?_, by norm_num [titleLineHeight, titleFontSize], ?_, ?_⟩
  · intro measure imgWidth title line hl
    rcases wrapWords_sound measure imgWidth
        (splitWhitespace (strToUpper title)) ""
        (splitWhitespace_no_space (strToUpper title))
        (Or.inl rfl) line hl with h | h
    · exact Or.inl ((fits_iff_le_maxLineWidth _ _).mp h)
    · exact Or.inr h
  · intro imgHeight numLines
    unfold titleStartY titleLineHeight titleFontSize titleMarginBottom
    ring
  · intro measure imgWidth line h
    unfold titleLineX
    have h2 : ((imgWidth : Int) - (measure line : Int))
        = ((imgWidth - measure line : Nat) : Int) := by omega
    rw [h2]
    exact (Int.ofNat_tdiv _ _).symm

/-- C4 witness: the wrap bound and the centering offset evaluated at a
concrete title and a length-based width oracle. -/
theorem C4_title_layout_witness :
    ((((fun s => s.length) "DUNE PART TWO" : Nat) : ℚ) ≤ maxLineWidth 2000
      ∨ hasNoSpace "DUNE PART TWO" = true)
  ∧ titleLineX (fun s => s.length) 2000 "DUNE PART TWO"
      = (((2000 - 13 : Nat) / 2 : Nat) : Int) :=
  ⟨C4_title_layout.1 (fun s => s.length) 2000 "Dune Part Two"
      "DUNE PART TWO" (by decide),
   C4_title_layout.2.2.2 (fun s => s.length) 2000 "DUNE PART TWO" (by decide)⟩
